import Mathlib

/-!
Verification of the `lnk` Windows Shell Link (`.lnk`) decoder.

This file gives a shallow embedding of the decoder in `src/lnk.go`
(function `Parse`; the function `Open` in `src/open.go` is line-for-line
the same logic) together with the hotkey renderer `HotKey.String` from
the repository, and proves or refutes the frozen claims about it.

Modelling conventions:
- the input `io.Reader` is a finite byte stream, modelled as `List Nat`
  (each element a byte value);
- `binary.Read` of a k-byte little-endian integer uses `io.ReadFull`
  semantics: it fails unless k bytes are available (`readLE`);
- a bare `file.Read(buf)` call is a single `io.Reader.Read`: it returns
  up to `len(buf)` bytes and reports an error only when the stream is
  already empty (the semantics of `bytes.Reader` and of `os.File` at
  end of stream); the destination buffer is zero-initialised, so the
  buffer contents after a short read are the available bytes padded
  with zero bytes (`readUpTo`);
- `bufio.Reader.ReadString 0` returns the bytes up to and including the
  first NUL, or fails when no NUL is found before end of stream
  (`readString0`);
- `time.Unix(0, n)` is represented by its nanosecond count `n : Int`;
- machine integers are `Nat` with explicit `% 2 ^ 64` where Go's
  `uint64` arithmetic wraps (`windowsNanoToTime`);
- on error Go `Parse` returns the partially built record next to the
  error; no claim depends on that partial record, so the embedding
  returns only the error.
-/

deriving instance DecidableEq for Except

/-- The error values of src/lnk.go lines 113-125.  `eof` stands for an
error of the underlying reader (io.EOF / io.ErrUnexpectedEOF), the
"truncated input" error kind of the spec. -/
inductive ParseError where
  | eof
  | invalidHeaderSize
  | invalidCLSID
  | reservedBitSet
  | invalidHotKey
deriving DecidableEq, Repr

/-- Value of a little-endian byte list. -/
def leVal : List Nat → Nat
  | [] => 0
  | b :: rest => b + 256 * leVal rest

/-- Model of `binary.Read` of a k-byte little-endian unsigned integer
(io.ReadFull semantics: fails unless k bytes are available). -/
def readLE (k : Nat) (s : List Nat) : Except ParseError (Nat × List Nat) :=
  if s.length < k then .error .eof
  else .ok (leVal (s.take k), s.drop k)

/-- A single `io.Reader.Read` call into a fresh buffer of length n
(bytes.Reader / os.File semantics): takes up to n bytes, an error only
when n > 0 and the stream is empty.  Go zero-initialises the buffer, so
a short read leaves the tail of the buffer as zero bytes.  The returned
pair is (buffer contents, remaining stream). -/
def readUpTo (n : Nat) (s : List Nat) : Except ParseError (List Nat × List Nat) :=
  if n ≠ 0 ∧ s.isEmpty then .error .eof
  else .ok (s.take n ++ List.replicate (n - s.length) 0, s.drop n)

/-- Model of `bufio.Reader.ReadString` with the NUL delimiter: the bytes up to and including the
first NUL byte; an error when no NUL occurs before end of stream (Go
returns the data together with io.EOF, and the decoder treats any
non-nil error as failure). -/
def readString0 : List Nat → Except ParseError (List Nat × List Nat)
  | [] => .error .eof
  | b :: rest =>
    if b = 0 then .ok ([0], rest)
    else
      match readString0 rest with
      | .error e => .error e
      | .ok (str, rest2) => .ok (b :: str, rest2)

/-- Model of Go strings.Trim with a NUL cutset: drop NUL bytes from both ends. -/
def trimNull (l : List Nat) : List Nat :=
  ((l.dropWhile (· = 0)).reverse.dropWhile (· = 0)).reverse

/-- src/lnk.go lines 129-132: the magic CLSID constant. -/
def validCLSID : List Nat :=
  [1, 20, 2, 0, 0, 0, 0, 0, 192, 0, 0, 0, 0, 0, 0, 70]

/-- src/lnk.go lines 405-414, `windowsNanoToTime`: Go computes
`int64(100*windowsNano - 11644473600000000000)` where the
multiplication and subtraction are `uint64` operations (wrapping
modulo 2^64) and the final conversion reinterprets the `uint64` bit
pattern as a signed `int64`.  The result is the nanosecond argument of
`time.Unix(0, ·)`: nanoseconds since the Unix epoch. -/
def windowsNanoToTime (windowsNano : Nat) : Int :=
  let u : Nat := (100 * windowsNano + (2 ^ 64 - 11644473600000000000)) % 2 ^ 64
  if u < 2 ^ 63 then (u : Int) else (u : Int) - 2 ^ 64

/-- The record built by `Parse` (struct `LNK`, src/lnk.go lines 29-111).
The inner structs `FileAttribute` and `HotKey` are flattened into
prefixed fields; `time.Time` fields hold Unix nanoseconds; strings of
bytes stay byte lists. -/
structure LNK where
  LinkFlags : Nat := 0
  HasTargetIDList : Bool := false
  HasLinkInfo : Bool := false
  HasName : Bool := false
  HasRelativePath : Bool := false
  HasWorkingDir : Bool := false
  HasArguments : Bool := false
  HasIconLocation : Bool := false
  IsUnicode : Bool := false
  ForceNoLinkInfo : Bool := false
  HasExpString : Bool := false
  RunInSeperateProcess : Bool := false
  HasDarwinID : Bool := false
  RunAsUser : Bool := false
  HasExpIcon : Bool := false
  NoPidlAlias : Bool := false
  RunWithShimLayer : Bool := false
  ForceNoLinkTrack : Bool := false
  EnableTargetMetadata : Bool := false
  DisableLinkPathTracking : Bool := false
  DisableKnownFolderTracking : Bool := false
  DisableKnownFolderAlias : Bool := false
  AllowLinkToLink : Bool := false
  UnaliasOnSave : Bool := false
  PreferEnvironmentPath : Bool := false
  KeepLocalIDListForUNCTarget : Bool := false
  FileAttributes : Nat := 0
  ReadOnly : Bool := false
  Hidden : Bool := false
  System : Bool := false
  Directory : Bool := false
  Archive : Bool := false
  Normal : Bool := false
  Temporary : Bool := false
  SparseFile : Bool := false
  ReparsePoint : Bool := false
  Compressed : Bool := false
  Offline : Bool := false
  NotContentIndexed : Bool := false
  Encrypted : Bool := false
  CreationTime : Int := 0
  AccessTime : Int := 0
  WriteTime : Int := 0
  FileSize : Nat := 0
  IconIndex : Nat := 0
  ShowCommand : Nat := 0
  HotKeyLowByte : Nat := 0
  HotKeyHighByte : Nat := 0
  HotKeyKey : String := ""
  HotKeyShift : Bool := false
  HotKeyCtrl : Bool := false
  HotKeyAlt : Bool := false
  IDListSize : Nat := 0
  IDListBytes : List Nat := []
  LinkInfoSize : Nat := 0
  LinkInfoHeaderSize : Nat := 0
  LinkInfoFlags : Nat := 0
  VolumeIDAndLocalBasePath : Bool := false
  CommonNetworkRelativeLinkAndPathSuffix : Bool := false
  VolumeIDOffset : Nat := 0
  LocalBasePathOffset : Nat := 0
  CommonNetworkRelativeLinkOffset : Nat := 0
  CommonPathSuffixOffset : Nat := 0
  LocalBasePathOffsetUnicode : Nat := 0
  CommonPathSuffixOffsetUnicode : Nat := 0
  VolumeIDSize : Nat := 0
  DriveType : Nat := 0
  DriveSerialNumber : Nat := 0
  VolumeLabelOffset : Nat := 0
  VolumeLabelOffsetUnicode : Nat := 0
  VolumeLabel : List Nat := []
  LocalBasePath : List Nat := []
deriving DecidableEq, Repr

/-- src/lnk.go lines 161-187: expansion of the `LinkFlags` word into
the named booleans (bits 11 and 16 are skipped: `Unused1`, `Unused2`). -/
def setLinkFlags (lnk : LNK) (w : Nat) : LNK :=
  { lnk with
    LinkFlags := w
    HasTargetIDList := w &&& 0x00000001 != 0
    HasLinkInfo := w &&& 0x00000002 != 0
    HasName := w &&& 0x00000004 != 0
    HasRelativePath := w &&& 0x00000008 != 0
    HasWorkingDir := w &&& 0x00000010 != 0
    HasArguments := w &&& 0x00000020 != 0
    HasIconLocation := w &&& 0x00000040 != 0
    IsUnicode := w &&& 0x00000080 != 0
    ForceNoLinkInfo := w &&& 0x00000100 != 0
    HasExpString := w &&& 0x00000200 != 0
    RunInSeperateProcess := w &&& 0x00000400 != 0
    HasDarwinID := w &&& 0x00001000 != 0
    RunAsUser := w &&& 0x00002000 != 0
    HasExpIcon := w &&& 0x00004000 != 0
    NoPidlAlias := w &&& 0x00008000 != 0
    RunWithShimLayer := w &&& 0x00020000 != 0
    ForceNoLinkTrack := w &&& 0x00040000 != 0
    EnableTargetMetadata := w &&& 0x00080000 != 0
    DisableLinkPathTracking := w &&& 0x00100000 != 0
    DisableKnownFolderTracking := w &&& 0x00200000 != 0
    DisableKnownFolderAlias := w &&& 0x00400000 != 0
    AllowLinkToLink := w &&& 0x00800000 != 0
    UnaliasOnSave := w &&& 0x01000000 != 0
    PreferEnvironmentPath := w &&& 0x02000000 != 0
    KeepLocalIDListForUNCTarget := w &&& 0x04000000 != 0 }

/-- src/lnk.go lines 193-207: expansion of the `FileAttributes` word
(bits 3 and 6 are skipped: `Reserved1`, `Reserved2`). -/
def setFileAttributes (lnk : LNK) (w : Nat) : LNK :=
  { lnk with
    FileAttributes := w
    ReadOnly := w &&& 0x00000001 != 0
    Hidden := w &&& 0x00000002 != 0
    System := w &&& 0x00000004 != 0
    Directory := w &&& 0x00000010 != 0
    Archive := w &&& 0x00000020 != 0
    Normal := w &&& 0x00000080 != 0
    Temporary := w &&& 0x00000100 != 0
    SparseFile := w &&& 0x00000200 != 0
    ReparsePoint := w &&& 0x00000400 != 0
    Compressed := w &&& 0x00000800 != 0
    Offline := w &&& 0x00001000 != 0
    NotContentIndexed := w &&& 0x00002000 != 0
    Encrypted := w &&& 0x00004000 != 0 }

/-- The hotkey low-byte rejection condition of src/lnk.go line 258
(the same expression appears in src/open.go line 145). -/
abbrev hotKeyInvalidCond (b : Nat) : Prop :=
  b < 0x30 ∨ (0x39 < b ∧ b < 0x41) ∨ (0x5a < b ∧ b < 0x70) ∨
    (0x87 < b ∧ b < 0x90) ∨ 0x91 < b

/-- The key-code token of src/lnk.go lines 261-269; the identical text
appears in `HotKey.String` (src/unnamed/part_001 lines 127-135). -/
def keyToken (key : Nat) : String :=
  if 0x70 ≤ key ∧ key ≤ 0x87 then "F" ++ toString (key - 0x6f)
  else if key = 0x90 then "NumLk"
  else if key = 0x91 then "ScrLK"
  else String.singleton (Char.ofNat key)

/-- The `HotKey` value type of src/unnamed/part_001 lines 103-110:
one raw key-code byte and three modifier booleans. -/
structure HotKey where
  Key : Nat
  Shift : Bool
  Ctrl : Bool
  Alt : Bool
deriving DecidableEq, Repr

/-- Function `HotKey.String` of src/unnamed/part_001 lines 112-138: the
modifier tokens in the fixed order Shift, Ctrl, Alt, each appended only
when its boolean is set, followed by the key token. -/
def hotKeyString (hk : HotKey) : String :=
  let str := ""
  let str := if hk.Shift then str ++ "Shift+" else str
  let str := if hk.Ctrl then str ++ "Ctrl+" else str
  let str := if hk.Alt then str ++ "Alt+" else str
  str ++ keyToken hk.Key

/-- src/lnk.go lines 139-155: header-size read and check, then CLSID
read and check. -/
def parseMagic (input : List Nat) : Except ParseError (List Nat) :=
  readLE 4 input >>= fun (headerSize, s1) =>
  if headerSize ≠ 76 then .error .invalidHeaderSize else
  readUpTo 16 s1 >>= fun (clsid, s2) =>
  if clsid ≠ validCLSID then .error .invalidCLSID else
  .ok s2

/-- src/lnk.go lines 157-210: the `LinkFlags` word, the
`FileAttributes` word, their expansion into named booleans, and the
reserved-bit check on bits 3 and 6 of `FileAttributes`. -/
def parseFlagsAttrs (s : List Nat) : Except ParseError (LNK × List Nat) :=
  readLE 4 s >>= fun (linkFlags, s1) =>
  let lnk := setLinkFlags {} linkFlags
  readLE 4 s1 >>= fun (fileAttributes, s2) =>
  let lnk := setFileAttributes lnk fileAttributes
  if lnk.FileAttributes &&& 0x00000008 ≠ 0 ∨ lnk.FileAttributes &&& 0x00000040 ≠ 0 then
    .error .reservedBitSet
  else .ok (lnk, s2)

/-- src/lnk.go lines 212-231: the three FILETIME timestamps. -/
def parseTimes (lnk : LNK) (s : List Nat) : Except ParseError (LNK × List Nat) :=
  readLE 8 s >>= fun (creationTime, s1) =>
  let lnk := { lnk with CreationTime := windowsNanoToTime creationTime }
  readLE 8 s1 >>= fun (accessTime, s2) =>
  let lnk := { lnk with AccessTime := windowsNanoToTime accessTime }
  readLE 8 s2 >>= fun (writeTime, s3) =>
  .ok ({ lnk with WriteTime := windowsNanoToTime writeTime }, s3)

/-- src/lnk.go lines 233-246: file size, icon index, show command. -/
def parseScalars (lnk : LNK) (s : List Nat) : Except ParseError (LNK × List Nat) :=
  readLE 4 s >>= fun (fileSize, s1) =>
  let lnk := { lnk with FileSize := fileSize }
  readLE 4 s1 >>= fun (iconIndex, s2) =>
  let lnk := { lnk with IconIndex := iconIndex }
  readLE 4 s2 >>= fun (showCommand, s3) =>
  .ok ({ lnk with ShowCommand := showCommand }, s3)

/-- src/lnk.go lines 248-272: the two hotkey bytes, the low-byte
validity check, and the hotkey field expansion. -/
def parseHotKey (lnk : LNK) (s : List Nat) : Except ParseError (LNK × List Nat) :=
  readLE 1 s >>= fun (hotKeyLowByte, s1) =>
  let lnk := { lnk with HotKeyLowByte := hotKeyLowByte }
  readLE 1 s1 >>= fun (hotKeyHighByte, s2) =>
  let lnk := { lnk with HotKeyHighByte := hotKeyHighByte }
  if hotKeyInvalidCond lnk.HotKeyLowByte then .error .invalidHotKey
  else
    .ok ({ lnk with
      HotKeyKey := keyToken lnk.HotKeyLowByte
      HotKeyShift := lnk.HotKeyHighByte &&& 1 != 0
      HotKeyCtrl := lnk.HotKeyHighByte &&& 2 != 0
      HotKeyAlt := lnk.HotKeyHighByte &&& 4 != 0 }, s2)

/-- src/lnk.go lines 274-294: the three trailing reserved header
fields (16-bit, 32-bit, 32-bit) and their must-be-zero check. -/
def parseReserved (lnk : LNK) (s : List Nat) : Except ParseError (LNK × List Nat) :=
  readLE 2 s >>= fun (reserved1, s1) =>
  readLE 4 s1 >>= fun (reserved2, s2) =>
  readLE 4 s2 >>= fun (reserved3, s3) =>
  if reserved1 ≠ 0 ∨ reserved2 ≠ 0 ∨ reserved3 ≠ 0 then .error .reservedBitSet
  else .ok (lnk, s3)

/-- src/lnk.go lines 139-294: the fixed 76-byte `ShellLinkHeader`
portion of `Parse`, ending after the check of the three trailing
reserved fields.  Composition of the contiguous chunks above, in
source order. -/
def parseHeader (input : List Nat) : Except ParseError (LNK × List Nat) :=
  parseMagic input >>= fun s2 =>
  parseFlagsAttrs s2 >>= fun (lnk, s4) =>
  parseTimes lnk s4 >>= fun (lnk2, s7) =>
  parseScalars lnk2 s7 >>= fun (lnk3, s10) =>
  parseHotKey lnk3 s10 >>= fun (lnk4, s12) =>
  parseReserved lnk4 s12

/-- src/lnk.go lines 296-306: the `LinkTargetIDList` stage.  Note that
the Go code ignores the byte count returned by `file.Read`, so a short
read of the ID-list bytes is not detected. -/
def parseIDList (lnk : LNK) (s : List Nat) : Except ParseError (LNK × List Nat) :=
  if lnk.HasTargetIDList then
    readLE 2 s >>= fun (idListSize, s1) =>
    let lnk := { lnk with IDListSize := idListSize }
    readUpTo idListSize s1 >>= fun (idListBytes, s2) =>
    .ok ({ lnk with IDListBytes := idListBytes }, s2)
  else .ok (lnk, s)

/-- src/lnk.go lines 388-398: the two null-terminated strings of the
`VolumeID` branch (volume label, then local base path), each trimmed of
NUL bytes. -/
def parseVolumeStrings (lnk : LNK) (s : List Nat) : Except ParseError (LNK × List Nat) :=
  readString0 s >>= fun (volumeLabel, s1) =>
  let lnk := { lnk with VolumeLabel := trimNull volumeLabel }
  readString0 s1 >>= fun (localBasePath, s2) =>
  .ok ({ lnk with LocalBasePath := trimNull localBasePath }, s2)

/-- src/lnk.go lines 360-399: the `VolumeID` branch, taken only when
the `VolumeIDAndLocalBasePath` sub-flag is set. -/
def parseVolume (lnk : LNK) (s : List Nat) : Except ParseError (LNK × List Nat) :=
  if lnk.VolumeIDAndLocalBasePath then
    readLE 4 s >>= fun (volumeIDSize, s1) =>
    let lnk := { lnk with VolumeIDSize := volumeIDSize }
    readLE 4 s1 >>= fun (driveType, s2) =>
    let lnk := { lnk with DriveType := driveType }
    readLE 4 s2 >>= fun (driveSerialNumber, s3) =>
    let lnk := { lnk with DriveSerialNumber := driveSerialNumber }
    readLE 4 s3 >>= fun (volumeLabelOffset, s4) =>
    let lnk := { lnk with VolumeLabelOffset := volumeLabelOffset }
    if lnk.VolumeLabelOffset > 16 then
      readLE 4 s4 >>= fun (volumeLabelOffsetUnicode, s5) =>
      parseVolumeStrings { lnk with VolumeLabelOffsetUnicode := volumeLabelOffsetUnicode } s5
    else parseVolumeStrings lnk s4
  else .ok (lnk, s)

/-- src/lnk.go lines 353-358: the second conditional Unicode offset
(read only when the nested header size exceeds 32), then the VolumeID
branch. -/
def parseLinkInfoUnicode2 (lnk : LNK) (s : List Nat) : Except ParseError (LNK × List Nat) :=
  if lnk.LinkInfoHeaderSize > 32 then
    readLE 4 s >>= fun (v, s1) =>
    parseVolume { lnk with CommonPathSuffixOffsetUnicode := v } s1
  else parseVolume lnk s

/-- src/lnk.go lines 346-351: the first conditional Unicode offset
(read only when the nested header size exceeds 28). -/
def parseLinkInfoUnicode1 (lnk : LNK) (s : List Nat) : Except ParseError (LNK × List Nat) :=
  if lnk.LinkInfoHeaderSize > 28 then
    readLE 4 s >>= fun (v, s1) =>
    parseLinkInfoUnicode2 { lnk with LocalBasePathOffsetUnicode := v } s1
  else parseLinkInfoUnicode2 lnk s

/-- src/lnk.go lines 309-399: the body of the `LinkInfo` stage (the
part inside `if lnk.HasLinkInfo`). -/
def parseLinkInfoBody (lnk : LNK) (s : List Nat) : Except ParseError (LNK × List Nat) :=
  readLE 4 s >>= fun (linkInfoSize, s1) =>
  let lnk := { lnk with LinkInfoSize := linkInfoSize }
  readLE 4 s1 >>= fun (linkInfoHeaderSize, s2) =>
  let lnk := { lnk with LinkInfoHeaderSize := linkInfoHeaderSize }
  readLE 4 s2 >>= fun (linkInfoFlags, s3) =>
  let lnk := { lnk with
    LinkInfoFlags := linkInfoFlags
    VolumeIDAndLocalBasePath := linkInfoFlags &&& 1 != 0
    CommonNetworkRelativeLinkAndPathSuffix := linkInfoFlags &&& 2 != 0 }
  readLE 4 s3 >>= fun (volumeIDOffset, s4) =>
  let lnk := { lnk with VolumeIDOffset := volumeIDOffset }
  readLE 4 s4 >>= fun (localBasePathOffset, s5) =>
  let lnk := { lnk with LocalBasePathOffset := localBasePathOffset }
  readLE 4 s5 >>= fun (commonNetworkRelativeLinkOffset, s6) =>
  let lnk := { lnk with CommonNetworkRelativeLinkOffset := commonNetworkRelativeLinkOffset }
  readLE 4 s6 >>= fun (commonPathSuffixOffset, s7) =>
  let lnk := { lnk with CommonPathSuffixOffset := commonPathSuffixOffset }
  parseLinkInfoUnicode1 lnk s7

/-- src/lnk.go lines 308-400: the `LinkInfo` stage. -/
def parseLinkInfo (lnk : LNK) (s : List Nat) : Except ParseError (LNK × List Nat) :=
  if lnk.HasLinkInfo then parseLinkInfoBody lnk s else .ok (lnk, s)

/-- src/lnk.go lines 134-403, `Parse`: the whole decoder, composed of
its three sequential stages. -/
def Parse (input : List Nat) : Except ParseError (LNK × List Nat) :=
  parseHeader input >>= fun (lnk, s) =>
  parseIDList lnk s >>= fun (lnk2, s2) =>
  parseLinkInfo lnk2 s2

/-- k-byte little-endian encoding of a value (spec-side test-vector
builder, inverse of `readLE` on in-range values). -/
def encLE : Nat → Nat → List Nat
  | 0, _ => []
  | k + 1, v => v % 256 :: encLE k (v / 256)

/-- A well-formed 76-byte `ShellLinkHeader` followed by `rest`:
header size 76, the magic CLSID, then the remaining fixed fields with
the given values (all little-endian). -/
def headerBytes (flags attrs ct at' wt fs ii sc kLow kHigh r1 r2 r3 : Nat)
    (rest : List Nat) : List Nat :=
  encLE 4 76 ++ (validCLSID ++ (encLE 4 flags ++ (encLE 4 attrs ++
    (encLE 8 ct ++ (encLE 8 at' ++ (encLE 8 wt ++ (encLE 4 fs ++
    (encLE 4 ii ++ (encLE 4 sc ++ (kLow :: kHigh ::
    (encLE 2 r1 ++ (encLE 4 r2 ++ (encLE 4 r3 ++ rest)))))))))))))

/-- The record produced by the header stage on `headerBytes` input. -/
def headerRecord (flags attrs ct at' wt fs ii sc kLow kHigh : Nat) : LNK :=
  { setFileAttributes (setLinkFlags {} flags) attrs with
    CreationTime := windowsNanoToTime ct
    AccessTime := windowsNanoToTime at'
    WriteTime := windowsNanoToTime wt
    FileSize := fs
    IconIndex := ii
    ShowCommand := sc
    HotKeyLowByte := kLow
    HotKeyHighByte := kHigh
    HotKeyKey := keyToken kLow
    HotKeyShift := kHigh &&& 1 != 0
    HotKeyCtrl := kHigh &&& 2 != 0
    HotKeyAlt := kHigh &&& 4 != 0 }

/-- The hotkey acceptance set as the spec states it (section 4.2):
digits 0x30-0x39, letters 0x41-0x5A, function keys 0x70-0x87, NumLock
0x90 and ScrollLock 0x91. -/
abbrev hotKeyAccepted (b : Nat) : Prop :=
  (0x30 ≤ b ∧ b ≤ 0x39) ∨ (0x41 ≤ b ∧ b ≤ 0x5a) ∨ (0x70 ≤ b ∧ b ≤ 0x87) ∨
    b = 0x90 ∨ b = 0x91

/-- The key-code token rule as the spec states it (section 4.2): codes
in [0x70, 0x87] render as F followed by code minus 0x6F in decimal,
0x90 and 0x91 render as the fixed NumLock / ScrollLock tokens, any
other accepted code renders as its literal character. -/
def keyTokenSpec (key : Nat) : String :=
  if 0x70 ≤ key ∧ key ≤ 0x87 then "F" ++ toString (key - 0x6f)
  else if key = 0x90 then "NumLk"
  else if key = 0x91 then "ScrLK"
  else String.singleton (Char.ofNat key)

/-- The full hotkey rendering as the spec states it (section 4.2): the
modifier tokens "Shift+", "Ctrl+", "Alt+" in that fixed order, each
present only when its bit is set, ahead of the key token. -/
def hotKeyRenderSpec (key : Nat) (sh ct al : Bool) : String :=
  (((if sh then "Shift+" else "") ++ (if ct then "Ctrl+" else "")) ++
    (if al then "Alt+" else "")) ++ keyTokenSpec key

/-- The bit positions of `LinkFlags` that `setLinkFlags` maps to named
booleans, in ascending order (bits 11 and 16 are skipped). -/
def flagBits : List Nat :=
  [0, 1, 2, 3, 4, 5, 6, 7, 8, 9, 10, 12, 13, 14, 15, 17, 18, 19, 20, 21, 22, 23, 24, 25, 26]

/-- The bit position mapped to the i-th named `LinkFlags` boolean. -/
def bitOf (i : Fin 25) : Nat := flagBits.getD i 0

/-- The named `LinkFlags` booleans of a record, in the source's
declaration order (which is ascending bit order). -/
def linkFlagList (r : LNK) : List Bool :=
  [r.HasTargetIDList, r.HasLinkInfo, r.HasName, r.HasRelativePath, r.HasWorkingDir,
    r.HasArguments, r.HasIconLocation, r.IsUnicode, r.ForceNoLinkInfo, r.HasExpString,
    r.RunInSeperateProcess, r.HasDarwinID, r.RunAsUser, r.HasExpIcon, r.NoPidlAlias,
    r.RunWithShimLayer, r.ForceNoLinkTrack, r.EnableTargetMetadata, r.DisableLinkPathTracking,
    r.DisableKnownFolderTracking, r.DisableKnownFolderAlias, r.AllowLinkToLink, r.UnaliasOnSave,
    r.PreferEnvironmentPath, r.KeepLocalIDListForUNCTarget]

/-- The i-th named `LinkFlags` boolean of a record. -/
def linkFlagAt (r : LNK) (i : Fin 25) : Bool := (linkFlagList r).getD i false

/-- A shortcut stream whose header is valid (`HasTargetIDList` set, no
other flag), whose ID-list length prefix declares 2 bytes, but which
ends after a single ID-list byte 0xAA: a file truncated one byte before
its logical end. -/
def c1Input : List Nat :=
  headerBytes 1 0 0 0 0 0 0 0 0x30 0 0 0 0 (encLE 2 2 ++ [0xAA])

/-- The record `Parse` returns on `c1Input`: the ID-list blob is the
single available byte padded with a zero byte, silently reported as
success. -/
def c1Record : LNK :=
  { headerRecord 1 0 0 0 0 0 0 0 0x30 0 with IDListSize := 2, IDListBytes := [0xAA, 0] }

@[simp]
theorem ebind_ok {ε α β : Type} (a : α) (f : α → Except ε β) :
    (Except.ok a : Except ε α) >>= f = f a := rfl

@[simp]
theorem ebind_error {ε α β : Type} (e : ε) (f : α → Except ε β) :
    (Except.error e : Except ε α) >>= f = .error e := rfl

theorem length_encLE (k v : Nat) : (encLE k v).length = k := by
  induction k generalizing v with
  | zero => rfl
  | succ k ih => simp [encLE, ih]

theorem leVal_encLE (k v : Nat) : leVal (encLE k v) = v % 2 ^ (8 * k) := by
  induction k generalizing v with
  | zero => simp [encLE, leVal, Nat.mod_one]
  | succ k ih =>
    have h2 : (2 : Nat) ^ (8 * (k + 1)) = 256 * 2 ^ (8 * k) := by ring
    rw [encLE, leVal, ih, h2, Nat.mod_mul]

theorem readLE_enc_mod (k v : Nat) (r : List Nat) :
    readLE k (encLE k v ++ r) = .ok (v % 2 ^ (8 * k), r) := by
  have htake := List.take_left (encLE k v) r
  have hdrop := List.drop_left (encLE k v) r
  rw [length_encLE] at htake hdrop
  have hlen : ¬ (encLE k v ++ r).length < k := by
    simp only [List.length_append, length_encLE]
    omega
  rw [readLE, if_neg hlen, htake, hdrop, leVal_encLE]

@[simp]
theorem read32_enc (v : Nat) (r : List Nat) :
    readLE 4 (encLE 4 v ++ r) = .ok (v % 4294967296, r) := by
  have h := readLE_enc_mod 4 v r
  norm_num at h
  exact h

@[simp]
theorem read16_enc (v : Nat) (r : List Nat) :
    readLE 2 (encLE 2 v ++ r) = .ok (v % 65536, r) := by
  have h := readLE_enc_mod 2 v r
  norm_num at h
  exact h

@[simp]
theorem read64_enc (v : Nat) (r : List Nat) :
    readLE 8 (encLE 8 v ++ r) = .ok (v % 18446744073709551616, r) := by
  have h := readLE_enc_mod 8 v r
  norm_num at h
  exact h

@[simp]
theorem readLE1_cons (b : Nat) (r : List Nat) : readLE 1 (b :: r) = .ok (b, r) := by
  simp [readLE, leVal]

theorem readUpTo_exact (n : Nat) (l r : List Nat) (hl : l.length = n) (hn : n ≠ 0) :
    readUpTo n (l ++ r) = .ok (l, r) := by
  have hcond : ¬ (n ≠ 0 ∧ (l ++ r).isEmpty = true) := by
    rintro ⟨-, hemp⟩
    rw [List.isEmpty_iff] at hemp
    rcases List.append_eq_nil.mp hemp with ⟨h1, h2⟩
    subst h1
    simp at hl
    omega
  have htake : (l ++ r).take n = l := by
    rw [← hl]; exact List.take_left _ _
  have hdrop : (l ++ r).drop n = r := by
    rw [← hl]; exact List.drop_left _ _
  have hrep : n - (l ++ r).length = 0 := by
    simp only [List.length_append, hl]
    omega
  rw [readUpTo, if_neg hcond, htake, hdrop, hrep]
  simp

@[simp]
theorem readUpTo_validCLSID (r : List Nat) :
    readUpTo 16 (validCLSID ++ r) = .ok (validCLSID, r) :=
  readUpTo_exact 16 validCLSID r (by decide) (by decide)

theorem parseMagic_enc (r : List Nat) :
    parseMagic (encLE 4 76 ++ (validCLSID ++ r)) = .ok r := by
  simp [parseMagic]

theorem parseFlagsAttrs_enc (flags attrs : Nat) (r : List Nat)
    (hf : flags < 4294967296) (ha : attrs < 4294967296) :
    parseFlagsAttrs (encLE 4 flags ++ (encLE 4 attrs ++ r)) =
      if attrs &&& 0x00000008 ≠ 0 ∨ attrs &&& 0x00000040 ≠ 0 then .error .reservedBitSet
      else .ok (setFileAttributes (setLinkFlags {} flags) attrs, r) := by
  simp only [parseFlagsAttrs, read32_enc, ebind_ok, Nat.mod_eq_of_lt hf, Nat.mod_eq_of_lt ha]
  rfl

theorem parseTimes_enc (lnk : LNK) (ct at' wt : Nat) (r : List Nat)
    (hct : ct < 18446744073709551616) (hat : at' < 18446744073709551616)
    (hwt : wt < 18446744073709551616) :
    parseTimes lnk (encLE 8 ct ++ (encLE 8 at' ++ (encLE 8 wt ++ r))) =
      .ok ({ lnk with
        CreationTime := windowsNanoToTime ct
        AccessTime := windowsNanoToTime at'
        WriteTime := windowsNanoToTime wt }, r) := by
  simp only [parseTimes, read64_enc, ebind_ok,
    Nat.mod_eq_of_lt hct, Nat.mod_eq_of_lt hat, Nat.mod_eq_of_lt hwt]

theorem parseScalars_enc (lnk : LNK) (fs ii sc : Nat) (r : List Nat)
    (hfs : fs < 4294967296) (hii : ii < 4294967296) (hsc : sc < 4294967296) :
    parseScalars lnk (encLE 4 fs ++ (encLE 4 ii ++ (encLE 4 sc ++ r))) =
      .ok ({ lnk with FileSize := fs, IconIndex := ii, ShowCommand := sc }, r) := by
  simp only [parseScalars, read32_enc, ebind_ok,
    Nat.mod_eq_of_lt hfs, Nat.mod_eq_of_lt hii, Nat.mod_eq_of_lt hsc]

theorem parseHotKey_cons (lnk : LNK) (kLow kHigh : Nat) (r : List Nat) :
    parseHotKey lnk (kLow :: kHigh :: r) =
      if hotKeyInvalidCond kLow then .error .invalidHotKey
      else .ok ({ lnk with
        HotKeyLowByte := kLow
        HotKeyHighByte := kHigh
        HotKeyKey := keyToken kLow
        HotKeyShift := kHigh &&& 1 != 0
        HotKeyCtrl := kHigh &&& 2 != 0
        HotKeyAlt := kHigh &&& 4 != 0 }, r) := by
  simp only [parseHotKey, readLE1_cons, ebind_ok]

theorem parseReserved_enc (lnk : LNK) (r1 r2 r3 : Nat) (rest : List Nat)
    (hr1 : r1 < 65536) (hr2 : r2 < 4294967296) (hr3 : r3 < 4294967296) :
    parseReserved lnk (encLE 2 r1 ++ (encLE 4 r2 ++ (encLE 4 r3 ++ rest))) =
      if r1 ≠ 0 ∨ r2 ≠ 0 ∨ r3 ≠ 0 then .error .reservedBitSet
      else .ok (lnk, rest) := by
  simp only [parseReserved, read32_enc, read16_enc, ebind_ok,
    Nat.mod_eq_of_lt hr1, Nat.mod_eq_of_lt hr2, Nat.mod_eq_of_lt hr3]

theorem parseHeader_headerBytes (flags attrs ct at' wt fs ii sc kLow kHigh r1 r2 r3 : Nat)
    (rest : List Nat)
    (hf : flags < 4294967296) (ha : attrs < 4294967296)
    (hct : ct < 18446744073709551616) (hat : at' < 18446744073709551616)
    (hwt : wt < 18446744073709551616)
    (hfs : fs < 4294967296) (hii : ii < 4294967296) (hsc : sc < 4294967296)
    (hr1 : r1 < 65536) (hr2 : r2 < 4294967296) (hr3 : r3 < 4294967296) :
    parseHeader (headerBytes flags attrs ct at' wt fs ii sc kLow kHigh r1 r2 r3 rest) =
      if attrs &&& 0x00000008 ≠ 0 ∨ attrs &&& 0x00000040 ≠ 0 then .error .reservedBitSet
      else if hotKeyInvalidCond kLow then .error .invalidHotKey
      else if r1 ≠ 0 ∨ r2 ≠ 0 ∨ r3 ≠ 0 then .error .reservedBitSet
      else .ok (headerRecord flags attrs ct at' wt fs ii sc kLow kHigh, rest) := by
  rw [parseHeader, headerBytes, parseMagic_enc]
  simp only [ebind_ok]
  rw [parseFlagsAttrs_enc _ _ _ hf ha]
  by_cases hA : attrs &&& 0x00000008 ≠ 0 ∨ attrs &&& 0x00000040 ≠ 0
  · rw [if_pos hA, if_pos hA]
    rfl
  · rw [if_neg hA, if_neg hA]
    simp only [ebind_ok]
    rw [parseTimes_enc _ _ _ _ _ hct hat hwt]
    simp only [ebind_ok]
    rw [parseScalars_enc _ _ _ _ _ hfs hii hsc]
    simp only [ebind_ok]
    rw [parseHotKey_cons]
    by_cases hK : hotKeyInvalidCond kLow
    · rw [if_pos hK, if_pos hK]
      rfl
    · rw [if_neg hK, if_neg hK]
      simp only [ebind_ok]
      rw [parseReserved_enc _ _ _ _ _ hr1 hr2 hr3]
      by_cases hR : r1 ≠ 0 ∨ r2 ≠ 0 ∨ r3 ≠ 0
      · rw [if_pos hR, if_pos hR]
      · rw [if_neg hR, if_neg hR]
        rfl

theorem parseLinkInfoBody_enc0 (lnk : LNK) (sz hdr a b c d u1 u2 : Nat) (rest : List Nat)
    (hsz : sz < 4294967296) (hhdr : hdr < 4294967296)
    (ha : a < 4294967296) (hb : b < 4294967296) (hc : c < 4294967296) (hd : d < 4294967296)
    (hu1 : u1 < 4294967296) (hu2 : u2 < 4294967296) :
    parseLinkInfoBody lnk (encLE 4 sz ++ (encLE 4 hdr ++ (encLE 4 0 ++ (encLE 4 a ++
        (encLE 4 b ++ (encLE 4 c ++ (encLE 4 d ++ (encLE 4 u1 ++ (encLE 4 u2 ++ rest))))))))) =
      .ok ({ lnk with
          LinkInfoSize := sz
          LinkInfoHeaderSize := hdr
          LinkInfoFlags := 0
          VolumeIDAndLocalBasePath := false
          CommonNetworkRelativeLinkAndPathSuffix := false
          VolumeIDOffset := a
          LocalBasePathOffset := b
          CommonNetworkRelativeLinkOffset := c
          CommonPathSuffixOffset := d
          LocalBasePathOffsetUnicode :=
            if 28 < hdr then u1 else lnk.LocalBasePathOffsetUnicode
          CommonPathSuffixOffsetUnicode :=
            if 32 < hdr then u2 else lnk.CommonPathSuffixOffsetUnicode },
        if 28 < hdr then (if 32 < hdr then rest else encLE 4 u2 ++ rest)
        else encLE 4 u1 ++ (encLE 4 u2 ++ rest)) := by
  simp only [parseLinkInfoBody, read32_enc, ebind_ok, Nat.mod_eq_of_lt hsz,
    Nat.mod_eq_of_lt hhdr, Nat.mod_eq_of_lt ha, Nat.mod_eq_of_lt hb, Nat.mod_eq_of_lt hc,
    Nat.mod_eq_of_lt hd, Nat.zero_mod]
  by_cases h1 : 28 < hdr
  · by_cases h2 : 32 < hdr
    · simp only [parseLinkInfoUnicode1, parseLinkInfoUnicode2, parseVolume, h1, h2,
        if_true, if_pos, read32_enc, ebind_ok, Nat.mod_eq_of_lt hu1, Nat.mod_eq_of_lt hu2]
      simp [if_pos h1, if_pos h2]
    · simp only [parseLinkInfoUnicode1, parseLinkInfoUnicode2, parseVolume, h1, h2,
        read32_enc, ebind_ok, Nat.mod_eq_of_lt hu1]
      simp [if_pos h1, if_neg h2]
  · have h2 : ¬ 32 < hdr := by omega
    simp only [parseLinkInfoUnicode1, parseLinkInfoUnicode2, parseVolume, h1, h2]
    simp [if_neg h1, if_neg h2]

theorem ebind_ok_inv {ε α β : Type} {x : Except ε α} {f : α → Except ε β} {b : β}
    (h : (x >>= f) = .ok b) : ∃ a, x = .ok a ∧ f a = .ok b := by
  cases x with
  | error e => exact Except.noConfusion h
  | ok a => exact ⟨a, rfl, h⟩

theorem parseFlagsAttrs_ok {s : List Nat} {l2 : LNK} {s2 : List Nat}
    (h : parseFlagsAttrs s = .ok (l2, s2)) :
    l2.FileAttributes &&& 0x00000008 = 0 ∧ l2.FileAttributes &&& 0x00000040 = 0 := by
  unfold parseFlagsAttrs at h
  obtain ⟨⟨flags, s1⟩, -, h⟩ := ebind_ok_inv h
  obtain ⟨⟨attrs, t2⟩, -, h⟩ := ebind_ok_inv h
  dsimp only at h
  split at h
  next => exact Except.noConfusion h
  next hc =>
    simp only [Except.ok.injEq, Prod.mk.injEq] at h
    obtain ⟨hl, -⟩ := h
    subst hl
    push_neg at hc
    exact hc

theorem parseTimes_pres {l : LNK} {s : List Nat} {l2 : LNK} {s2 : List Nat}
    (h : parseTimes l s = .ok (l2, s2)) :
    l2.FileAttributes = l.FileAttributes ∧ l2.HotKeyLowByte = l.HotKeyLowByte := by
  unfold parseTimes at h
  obtain ⟨⟨ct, t1⟩, -, h⟩ := ebind_ok_inv h
  obtain ⟨⟨at2, t2⟩, -, h⟩ := ebind_ok_inv h
  obtain ⟨⟨wt, t3⟩, -, h⟩ := ebind_ok_inv h
  dsimp only at h
  simp only [Except.ok.injEq, Prod.mk.injEq] at h
  obtain ⟨hl, -⟩ := h
  subst hl
  exact ⟨rfl, rfl⟩

theorem parseScalars_pres {l : LNK} {s : List Nat} {l2 : LNK} {s2 : List Nat}
    (h : parseScalars l s = .ok (l2, s2)) :
    l2.FileAttributes = l.FileAttributes ∧ l2.HotKeyLowByte = l.HotKeyLowByte := by
  unfold parseScalars at h
  obtain ⟨⟨fs, t1⟩, -, h⟩ := ebind_ok_inv h
  obtain ⟨⟨ii, t2⟩, -, h⟩ := ebind_ok_inv h
  obtain ⟨⟨sc, t3⟩, -, h⟩ := ebind_ok_inv h
  dsimp only at h
  simp only [Except.ok.injEq, Prod.mk.injEq] at h
  obtain ⟨hl, -⟩ := h
  subst hl
  exact ⟨rfl, rfl⟩

theorem parseHotKey_ok {l : LNK} {s : List Nat} {l2 : LNK} {s2 : List Nat}
    (h : parseHotKey l s = .ok (l2, s2)) :
    l2.FileAttributes = l.FileAttributes ∧ ¬ hotKeyInvalidCond l2.HotKeyLowByte := by
  unfold parseHotKey at h
  obtain ⟨⟨kLow, t1⟩, -, h⟩ := ebind_ok_inv h
  obtain ⟨⟨kHigh, t2⟩, -, h⟩ := ebind_ok_inv h
  dsimp only at h
  split at h
  next => exact Except.noConfusion h
  next hc =>
    simp only [Except.ok.injEq, Prod.mk.injEq] at h
    obtain ⟨hl, -⟩ := h
    subst hl
    exact ⟨rfl, hc⟩

theorem parseReserved_ok {l : LNK} {s : List Nat} {l2 : LNK} {s2 : List Nat}
    (h : parseReserved l s = .ok (l2, s2)) : l2 = l := by
  unfold parseReserved at h
  obtain ⟨⟨r1, t1⟩, -, h⟩ := ebind_ok_inv h
  obtain ⟨⟨r2, t2⟩, -, h⟩ := ebind_ok_inv h
  obtain ⟨⟨r3, t3⟩, -, h⟩ := ebind_ok_inv h
  dsimp only at h
  split at h
  next => exact Except.noConfusion h
  next =>
    simp only [Except.ok.injEq, Prod.mk.injEq] at h
    exact h.1.symm

theorem parseHeader_ok {bs : List Nat} {l : LNK} {s : List Nat}
    (h : parseHeader bs = .ok (l, s)) :
    (l.FileAttributes &&& 0x00000008 = 0 ∧ l.FileAttributes &&& 0x00000040 = 0) ∧
      ¬ hotKeyInvalidCond l.HotKeyLowByte := by
  unfold parseHeader at h
  obtain ⟨s2, -, h⟩ := ebind_ok_inv h
  obtain ⟨⟨l1, s4⟩, hfa, h⟩ := ebind_ok_inv h
  obtain ⟨⟨lt, s7⟩, ht, h⟩ := ebind_ok_inv h
  obtain ⟨⟨ls, s10⟩, hsca, h⟩ := ebind_ok_inv h
  obtain ⟨⟨lh, s12⟩, hhk, h⟩ := ebind_ok_inv h
  have e1 := parseFlagsAttrs_ok hfa
  have e2 := parseTimes_pres ht
  have e3 := parseScalars_pres hsca
  have e4 := parseHotKey_ok hhk
  have e5 := parseReserved_ok h
  rw [e5, e4.1, e3.1, e2.1]
  exact ⟨e1, e4.2⟩

theorem parseIDList_pres {l : LNK} {s : List Nat} {l2 : LNK} {s2 : List Nat}
    (h : parseIDList l s = .ok (l2, s2)) :
    l2.FileAttributes = l.FileAttributes ∧ l2.HotKeyLowByte = l.HotKeyLowByte := by
  unfold parseIDList at h
  split at h
  · obtain ⟨⟨n, t1⟩, -, h⟩ := ebind_ok_inv h
    obtain ⟨⟨bytes, t2⟩, -, h⟩ := ebind_ok_inv h
    dsimp only at h
    simp only [Except.ok.injEq, Prod.mk.injEq] at h
    obtain ⟨hl, -⟩ := h
    subst hl
    exact ⟨rfl, rfl⟩
  · simp only [Except.ok.injEq, Prod.mk.injEq] at h
    obtain ⟨hl, -⟩ := h
    subst hl
    exact ⟨rfl, rfl⟩

theorem parseVolumeStrings_pres {l : LNK} {s : List Nat} {l2 : LNK} {s2 : List Nat}
    (h : parseVolumeStrings l s = .ok (l2, s2)) :
    l2.FileAttributes = l.FileAttributes ∧ l2.HotKeyLowByte = l.HotKeyLowByte := by
  unfold parseVolumeStrings at h
  obtain ⟨⟨v1, t1⟩, -, h⟩ := ebind_ok_inv h
  obtain ⟨⟨v2, t2⟩, -, h⟩ := ebind_ok_inv h
  dsimp only at h
  simp only [Except.ok.injEq, Prod.mk.injEq] at h
  obtain ⟨hl, -⟩ := h
  subst hl
  exact ⟨rfl, rfl⟩

theorem parseVolume_pres {l : LNK} {s : List Nat} {l2 : LNK} {s2 : List Nat}
    (h : parseVolume l s = .ok (l2, s2)) :
    l2.FileAttributes = l.FileAttributes ∧ l2.HotKeyLowByte = l.HotKeyLowByte := by
  unfold parseVolume at h
  split at h
  · obtain ⟨⟨v1, t1⟩, -, h⟩ := ebind_ok_inv h
    obtain ⟨⟨v2, t2⟩, -, h⟩ := ebind_ok_inv h
    obtain ⟨⟨v3, t3⟩, -, h⟩ := ebind_ok_inv h
    obtain ⟨⟨v4, t4⟩, -, h⟩ := ebind_ok_inv h
    dsimp only at h
    split at h
    · obtain ⟨⟨v5, t5⟩, -, h⟩ := ebind_ok_inv h
      have hp := parseVolumeStrings_pres h
      exact hp
    · have hp := parseVolumeStrings_pres h
      exact hp
  · simp only [Except.ok.injEq, Prod.mk.injEq] at h
    obtain ⟨hl, -⟩ := h
    subst hl
    exact ⟨rfl, rfl⟩

theorem parseLinkInfoUnicode2_pres {l : LNK} {s : List Nat} {l2 : LNK} {s2 : List Nat}
    (h : parseLinkInfoUnicode2 l s = .ok (l2, s2)) :
    l2.FileAttributes = l.FileAttributes ∧ l2.HotKeyLowByte = l.HotKeyLowByte := by
  unfold parseLinkInfoUnicode2 at h
  split at h
  · obtain ⟨⟨v, t1⟩, -, h⟩ := ebind_ok_inv h
    have hp := parseVolume_pres h
    exact hp
  · have hp := parseVolume_pres h
    exact hp

theorem parseLinkInfoUnicode1_pres {l : LNK} {s : List Nat} {l2 : LNK} {s2 : List Nat}
    (h : parseLinkInfoUnicode1 l s = .ok (l2, s2)) :
    l2.FileAttributes = l.FileAttributes ∧ l2.HotKeyLowByte = l.HotKeyLowByte := by
  unfold parseLinkInfoUnicode1 at h
  split at h
  · obtain ⟨⟨v, t1⟩, -, h⟩ := ebind_ok_inv h
    have hp := parseLinkInfoUnicode2_pres h
    exact hp
  · have hp := parseLinkInfoUnicode2_pres h
    exact hp

theorem parseLinkInfoBody_pres {l : LNK} {s : List Nat} {l2 : LNK} {s2 : List Nat}
    (h : parseLinkInfoBody l s = .ok (l2, s2)) :
    l2.FileAttributes = l.FileAttributes ∧ l2.HotKeyLowByte = l.HotKeyLowByte := by
  unfold parseLinkInfoBody at h
  obtain ⟨⟨v1, t1⟩, -, h⟩ := ebind_ok_inv h
  obtain ⟨⟨v2, t2⟩, -, h⟩ := ebind_ok_inv h
  obtain ⟨⟨v3, t3⟩, -, h⟩ := ebind_ok_inv h
  obtain ⟨⟨v4, t4⟩, -, h⟩ := ebind_ok_inv h
  obtain ⟨⟨v5, t5⟩, -, h⟩ := ebind_ok_inv h
  obtain ⟨⟨v6, t6⟩, -, h⟩ := ebind_ok_inv h
  obtain ⟨⟨v7, t7⟩, -, h⟩ := ebind_ok_inv h
  have hp := parseLinkInfoUnicode1_pres h
  exact hp

theorem parseLinkInfo_pres {l : LNK} {s : List Nat} {l2 : LNK} {s2 : List Nat}
    (h : parseLinkInfo l s = .ok (l2, s2)) :
    l2.FileAttributes = l.FileAttributes ∧ l2.HotKeyLowByte = l.HotKeyLowByte := by
  unfold parseLinkInfo at h
  split at h
  · exact parseLinkInfoBody_pres h
  · simp only [Except.ok.injEq, Prod.mk.injEq] at h
    obtain ⟨hl, -⟩ := h
    subst hl
    exact ⟨rfl, rfl⟩

/-- Any successful `Parse` run passed the `FileAttributes` reserved-bit
check and the hotkey low-byte check, and those values are the ones kept
in the returned record. -/
theorem Parse_ok {bs : List Nat} {r : LNK} {rest : List Nat}
    (h : Parse bs = .ok (r, rest)) :
    (r.FileAttributes &&& 0x00000008 = 0 ∧ r.FileAttributes &&& 0x00000040 = 0) ∧
      ¬ hotKeyInvalidCond r.HotKeyLowByte := by
  unfold Parse at h
  obtain ⟨⟨l1, s1⟩, hh, h⟩ := ebind_ok_inv h
  obtain ⟨⟨l2, s2⟩, hi, h⟩ := ebind_ok_inv h
  have e1 := parseHeader_ok hh
  have e2 := parseIDList_pres hi
  have e3 := parseLinkInfo_pres h
  rw [e3.1, e3.2, e2.1, e2.2]
  exact e1

theorem readLE4_cons (b0 b1 b2 b3 : Nat) (r : List Nat) :
    readLE 4 (b0 :: b1 :: b2 :: b3 :: r) =
      .ok (b0 + 256 * (b1 + 256 * (b2 + 256 * b3)), r) := by
  simp [readLE, leVal]

theorem hotKey_cond_iff (b : Nat) : ¬ hotKeyInvalidCond b ↔ hotKeyAccepted b := by
  unfold hotKeyInvalidCond hotKeyAccepted
  omega

theorem land_two_pow_ne (w m k : Nat) (hm : m = 2 ^ k) :
    ((w &&& m) != 0) = w.testBit k := by
  subst hm
  rw [Nat.and_two_pow]
  cases h : w.testBit k <;> simp

theorem linkFlagAt_setLinkFlags (lnk : LNK) (w : Nat) (i : Fin 25) :
    linkFlagAt (setLinkFlags lnk w) i = w.testBit (bitOf i) := by
  fin_cases i <;>
    · simp only [linkFlagAt, linkFlagList, setLinkFlags, bitOf, flagBits, List.getD]
      exact land_two_pow_ne w _ _ (by norm_num)

theorem bitOf_inj (i j : Fin 25) (h : bitOf i = bitOf j) : i = j := by
  revert h
  revert i j
  decide

theorem bitOf_ne_11 (j : Fin 25) : bitOf j ≠ 11 := by
  revert j
  decide

theorem bitOf_ne_16 (j : Fin 25) : bitOf j ≠ 16 := by
  revert j
  decide

theorem Parse_headerBytes_invalidHotKey
    (flags attrs ct at' wt fs ii sc kLow kHigh r1 r2 r3 : Nat) (rest : List Nat)
    (hf : flags < 4294967296) (ha : attrs < 4294967296)
    (hct : ct < 18446744073709551616) (hat : at' < 18446744073709551616)
    (hwt : wt < 18446744073709551616)
    (hfs : fs < 4294967296) (hii : ii < 4294967296) (hsc : sc < 4294967296)
    (hr1 : r1 < 65536) (hr2 : r2 < 4294967296) (hr3 : r3 < 4294967296)
    (hA8 : attrs &&& 0x00000008 = 0) (hA64 : attrs &&& 0x00000040 = 0)
    (hK : hotKeyInvalidCond kLow) :
    Parse (headerBytes flags attrs ct at' wt fs ii sc kLow kHigh r1 r2 r3 rest) =
      .error .invalidHotKey := by
  unfold Parse
  rw [parseHeader_headerBytes _ _ _ _ _ _ _ _ _ _ _ _ _ _
    hf ha hct hat hwt hfs hii hsc hr1 hr2 hr3]
  rw [if_neg (by push_neg; exact ⟨hA8, hA64⟩), if_pos hK]
  rfl

theorem Parse_headerBytes_reservedTrailing
    (flags attrs ct at' wt fs ii sc kLow kHigh r1 r2 r3 : Nat) (rest : List Nat)
    (hf : flags < 4294967296) (ha : attrs < 4294967296)
    (hct : ct < 18446744073709551616) (hat : at' < 18446744073709551616)
    (hwt : wt < 18446744073709551616)
    (hfs : fs < 4294967296) (hii : ii < 4294967296) (hsc : sc < 4294967296)
    (hr1 : r1 < 65536) (hr2 : r2 < 4294967296) (hr3 : r3 < 4294967296)
    (hA8 : attrs &&& 0x00000008 = 0) (hA64 : attrs &&& 0x00000040 = 0)
    (hK : ¬ hotKeyInvalidCond kLow)
    (hR : r1 ≠ 0 ∨ r2 ≠ 0 ∨ r3 ≠ 0) :
    Parse (headerBytes flags attrs ct at' wt fs ii sc kLow kHigh r1 r2 r3 rest) =
      .error .reservedBitSet := by
  unfold Parse
  rw [parseHeader_headerBytes _ _ _ _ _ _ _ _ _ _ _ _ _ _
    hf ha hct hat hwt hfs hii hsc hr1 hr2 hr3]
  rw [if_neg (by push_neg; exact ⟨hA8, hA64⟩), if_neg hK, if_pos hR]
  rfl

theorem Parse_attrs_reserved (flags attrs : Nat) (rest : List Nat)
    (hf : flags < 4294967296) (ha : attrs < 4294967296)
    (hbad : attrs &&& 0x00000008 ≠ 0 ∨ attrs &&& 0x00000040 ≠ 0) :
    Parse (encLE 4 76 ++ (validCLSID ++ (encLE 4 flags ++ (encLE 4 attrs ++ rest)))) =
      .error .reservedBitSet := by
  unfold Parse parseHeader
  rw [parseMagic_enc]
  simp only [ebind_ok]
  rw [parseFlagsAttrs_enc _ _ _ hf ha, if_pos hbad]
  rfl

/-- C7: for every input whose first four little-endian bytes decode to
a 32-bit header-size value other than 76, decode fails with the
invalid-header-size error regardless of all subsequent bytes. -/
theorem C7_header_size_must_be_76 (b0 b1 b2 b3 : Nat) (rest : List Nat)
    (h : b0 + 256 * (b1 + 256 * (b2 + 256 * b3)) ≠ 76) :
    Parse (b0 :: b1 :: b2 :: b3 :: rest) = .error .invalidHeaderSize := by
  unfold Parse parseHeader parseMagic
  rw [readLE4_cons]
  simp only [ebind_ok]
  rw [if_pos h]
  rfl

/-- Witness for C7: a header-size field of 77 is rejected. -/
theorem C7_header_size_must_be_76_witness :
    Parse (77 :: 0 :: 0 :: 0 :: []) = .error .invalidHeaderSize :=
  C7_header_size_must_be_76 77 0 0 0 [] (by norm_num)

/-- C8: the hotkey key-code byte is accepted if and only if it lies in
{0x30-0x39, 0x41-0x5A, 0x70-0x87, 0x90, 0x91}; for every key-code byte
outside these ranges, decode fails with the invalid-hotkey error. -/
theorem C8_hotkey_acceptance :
    (∀ b : Nat, hotKeyInvalidCond b ↔ ¬ hotKeyAccepted b) ∧
    (∀ flags attrs ct at' wt fs ii sc kLow kHigh r1 r2 r3 rest,
      flags < 4294967296 → attrs < 4294967296 →
      ct < 18446744073709551616 → at' < 18446744073709551616 →
      wt < 18446744073709551616 →
      fs < 4294967296 → ii < 4294967296 → sc < 4294967296 →
      r1 < 65536 → r2 < 4294967296 → r3 < 4294967296 →
      attrs &&& 0x00000008 = 0 → attrs &&& 0x00000040 = 0 →
      ¬ hotKeyAccepted kLow →
      Parse (headerBytes flags attrs ct at' wt fs ii sc kLow kHigh r1 r2 r3 rest) =
        .error .invalidHotKey) := by
  constructor
  · intro b
    unfold hotKeyInvalidCond hotKeyAccepted
    omega
  · intro flags attrs ct at' wt fs ii sc kLow kHigh r1 r2 r3 rest
    intro hf ha hct hat hwt hfs hii hsc hr1 hr2 hr3 h8 h64 hacc
    refine Parse_headerBytes_invalidHotKey flags attrs ct at' wt fs ii sc kLow kHigh
      r1 r2 r3 rest hf ha hct hat hwt hfs hii hsc hr1 hr2 hr3 h8 h64 ?_
    by_contra hno
    exact hacc ((hotKey_cond_iff kLow).mp hno)

/-- Witness for C8: the key-code 0x29 (below the accepted ranges) is
rejected with the invalid-hotkey error. -/
theorem C8_hotkey_acceptance_witness :
    ¬ hotKeyAccepted 0x29 ∧
      Parse (headerBytes 0 0 0 0 0 0 0 0 0x29 0 0 0 0 []) = .error .invalidHotKey :=
  ⟨by decide,
    C8_hotkey_acceptance.2 0 0 0 0 0 0 0 0 0x29 0 0 0 0 []
      (by norm_num) (by norm_num) (by norm_num) (by norm_num) (by norm_num)
      (by norm_num) (by norm_num) (by norm_num) (by norm_num) (by norm_num)
      (by norm_num) (by decide) (by decide) (by decide)⟩

/-- C10 (implicit): a hotkey low byte of 0x00 (the standard encoding
for "no hotkey assigned") always fails the decode with the
invalid-hotkey error, and decode can only succeed on records whose
hotkey low byte lies in the accepted ranges. -/
theorem C10_no_hotkey_always_rejected :
    (∀ flags attrs ct at' wt fs ii sc kHigh r1 r2 r3 rest,
      flags < 4294967296 → attrs < 4294967296 →
      ct < 18446744073709551616 → at' < 18446744073709551616 →
      wt < 18446744073709551616 →
      fs < 4294967296 → ii < 4294967296 → sc < 4294967296 →
      r1 < 65536 → r2 < 4294967296 → r3 < 4294967296 →
      attrs &&& 0x00000008 = 0 → attrs &&& 0x00000040 = 0 →
      Parse (headerBytes flags attrs ct at' wt fs ii sc 0 kHigh r1 r2 r3 rest) =
        .error .invalidHotKey) ∧
    (∀ bs r rest, Parse bs = .ok (r, rest) → hotKeyAccepted r.HotKeyLowByte) := by
  constructor
  · intro flags attrs ct at' wt fs ii sc kHigh r1 r2 r3 rest
    intro hf ha hct hat hwt hfs hii hsc hr1 hr2 hr3 h8 h64
    exact Parse_headerBytes_invalidHotKey flags attrs ct at' wt fs ii sc 0 kHigh
      r1 r2 r3 rest hf ha hct hat hwt hfs hii hsc hr1 hr2 hr3 h8 h64 (by decide)
  · intro bs r rest h
    exact (hotKey_cond_iff _).mp (Parse_ok h).2

/-- Witness for C10: an otherwise fully valid header with hotkey bytes
0x00 0x00 is rejected. -/
theorem C10_no_hotkey_always_rejected_witness :
    Parse (headerBytes 0 0 0 0 0 0 0 0 0 0 0 0 0 []) = .error .invalidHotKey :=
  C10_no_hotkey_always_rejected.1 0 0 0 0 0 0 0 0 0 0 0 0 []
    (by norm_num) (by norm_num) (by norm_num) (by norm_num) (by norm_num)
    (by norm_num) (by norm_num) (by norm_num) (by norm_num) (by norm_num)
    (by norm_num) (by decide) (by decide)

/-- C6: a set reserved bit of `FileAttributes` (bit 3 or bit 6), or a
non-zero value of any of the three trailing reserved header fields,
aborts the decode with the reserved-bit-set error, and a decode only
succeeds when the reserved attribute bits are zero. -/
theorem C6_reserved_must_be_zero :
    (∀ flags attrs rest, flags < 4294967296 → attrs < 4294967296 →
      (attrs &&& 0x00000008 ≠ 0 ∨ attrs &&& 0x00000040 ≠ 0) →
      Parse (encLE 4 76 ++ (validCLSID ++ (encLE 4 flags ++ (encLE 4 attrs ++ rest)))) =
        .error .reservedBitSet) ∧
    (∀ flags attrs ct at' wt fs ii sc kLow kHigh r1 r2 r3 rest,
      flags < 4294967296 → attrs < 4294967296 →
      ct < 18446744073709551616 → at' < 18446744073709551616 →
      wt < 18446744073709551616 →
      fs < 4294967296 → ii < 4294967296 → sc < 4294967296 →
      r1 < 65536 → r2 < 4294967296 → r3 < 4294967296 →
      attrs &&& 0x00000008 = 0 → attrs &&& 0x00000040 = 0 →
      hotKeyAccepted kLow →
      ¬ (r1 = 0 ∧ r2 = 0 ∧ r3 = 0) →
      Parse (headerBytes flags attrs ct at' wt fs ii sc kLow kHigh r1 r2 r3 rest) =
        .error .reservedBitSet) ∧
    (∀ bs r rest, Parse bs = .ok (r, rest) →
      r.FileAttributes &&& 0x00000008 = 0 ∧ r.FileAttributes &&& 0x00000040 = 0) := by
  refine ⟨?_, ?_, ?_⟩
  · intro flags attrs rest hf ha hbad
    exact Parse_attrs_reserved flags attrs rest hf ha hbad
  · intro flags attrs ct at' wt fs ii sc kLow kHigh r1 r2 r3 rest
    intro hf ha hct hat hwt hfs hii hsc hr1 hr2 hr3 h8 h64 hacc hR
    refine Parse_headerBytes_reservedTrailing flags attrs ct at' wt fs ii sc kLow kHigh
      r1 r2 r3 rest hf ha hct hat hwt hfs hii hsc hr1 hr2 hr3 h8 h64
      ((hotKey_cond_iff kLow).mpr hacc) ?_
    tauto
  · intro bs r rest h
    exact (Parse_ok h).1

/-- Witness for C6: attribute bit 3 set aborts; a non-zero second
trailing reserved field aborts; the record of a successful decode has
both reserved attribute bits clear. -/
theorem C6_reserved_must_be_zero_witness :
    Parse (encLE 4 76 ++ (validCLSID ++ (encLE 4 0 ++ (encLE 4 8 ++ [])))) =
        .error .reservedBitSet ∧
      Parse (headerBytes 0 0 0 0 0 0 0 0 0x30 0 0 1 0 []) = .error .reservedBitSet ∧
      (c1Record.FileAttributes &&& 0x00000008 = 0 ∧
        c1Record.FileAttributes &&& 0x00000040 = 0) := by
  refine ⟨?_, ?_, ?_⟩
  · exact C6_reserved_must_be_zero.1 0 8 [] (by norm_num) (by norm_num) (by decide)
  · exact C6_reserved_must_be_zero.2.1 0 0 0 0 0 0 0 0 0x30 0 0 1 0 []
      (by norm_num) (by norm_num) (by norm_num) (by norm_num) (by norm_num)
      (by norm_num) (by norm_num) (by norm_num) (by norm_num) (by norm_num)
      (by norm_num) (by decide) (by decide) (by decide) (by decide)
  · exact C6_reserved_must_be_zero.2.2 c1Input c1Record [] (by decide)

/-- C1 (code-bug evidence): on a valid header with `HasTargetIDList`
set, an ID-list length prefix declaring 2 bytes, and only one byte left
in the stream, `Parse` returns success with a partially filled,
zero-padded `IDListBytes` blob instead of the truncated-input error:
the Go code ignores the byte count returned by `file.Read`. -/
theorem C1_truncated_idlist_silent_success :
    Parse c1Input = .ok (c1Record, []) ∧ c1Record.IDListSize = 2 ∧
      c1Record.IDListBytes = [0xAA, 0] ∧ ([0xAA] : List Nat).length < 2 := by
  decide

/-- C2 counterexample: the claim asserts the conversion is exact for
every 64-bit tick count, but at tick count 0 the uint64 arithmetic
wraps and the code produces a large positive value, not the negative
value −11644473600000000000 the claim requires. -/
theorem C2_counterexample :
    windowsNanoToTime 0 = 6802270473709551616 ∧
      ((0 : Int) - 116444736000000000) * 100 = -11644473600000000000 ∧
      windowsNanoToTime 0 ≠ ((0 : Int) - 116444736000000000) * 100 := by
  decide

/-- C2 (amended): for every tick count t with 100·(t − 116444736000000000)
inside the signed 64-bit range, i.e. 24211015631452242 ≤ t ≤
208678456368547758, the conversion produces exactly
(t − 116444736000000000)·100 nanoseconds since the Unix epoch; in
particular t = 116444736000000000 converts to exactly 0. -/
theorem C2_conversion_exact_in_range (t : Nat)
    (h1 : 24211015631452242 ≤ t) (h2 : t ≤ 208678456368547758) :
    windowsNanoToTime t = ((t : Int) - 116444736000000000) * 100 := by
  have h64 : (2 : Nat) ^ 64 = 18446744073709551616 := by norm_num
  have h63 : (2 : Nat) ^ 63 = 9223372036854775808 := by norm_num
  have hi64 : (2 : Int) ^ 64 = 18446744073709551616 := by norm_num
  simp only [windowsNanoToTime, h64, h63, hi64]
  split_ifs with h
  · omega
  · omega

/-- Witness for C2: the Windows tick value 116444736000000000 converts
to the Unix epoch, 0 nanoseconds. -/
theorem C2_conversion_exact_in_range_witness :
    windowsNanoToTime 116444736000000000 =
      ((116444736000000000 : Int) - 116444736000000000) * 100 :=
  C2_conversion_exact_in_range 116444736000000000 (by norm_num) (by norm_num)

/-- C3 counterexample: the mapped `LinkFlags` bit positions 0-10,
12-15, 17-26 number 25, and the decoder has 25 named link-flag
booleans, not 27 as the claim states. -/
theorem C3_counterexample :
    flagBits.length = 25 ∧ flagBits.length ≠ 27 ∧ (linkFlagList {}).length = 25 ∧
      (linkFlagList {}).length ≠ 27 := by
  decide

/-- C3 (amended): `LinkFlags` bits 0-10, 12-15, 17-26 map to 25 named
boolean flags in ascending bit order as a pure bijection on bit
position: for every 32-bit word, flipping a mapped bit toggles exactly
the one corresponding named flag and no other, while flipping the
unmapped bits 11 and 16 changes no named flag. -/
theorem C3_flag_toggle_bijection (w : Nat) (hw : w < 4294967296) (lnk : LNK)
    (i j : Fin 25) :
    (linkFlagAt (setLinkFlags lnk (w ^^^ 2 ^ bitOf i)) i =
      ! linkFlagAt (setLinkFlags lnk w) i) ∧
    (j ≠ i → linkFlagAt (setLinkFlags lnk (w ^^^ 2 ^ bitOf i)) j =
      linkFlagAt (setLinkFlags lnk w) j) ∧
    (linkFlagAt (setLinkFlags lnk (w ^^^ 2 ^ 11)) j = linkFlagAt (setLinkFlags lnk w) j) ∧
    (linkFlagAt (setLinkFlags lnk (w ^^^ 2 ^ 16)) j = linkFlagAt (setLinkFlags lnk w) j) := by
  refine ⟨?_, ?_, ?_, ?_⟩
  · rw [linkFlagAt_setLinkFlags, linkFlagAt_setLinkFlags, Nat.testBit_xor,
      Nat.testBit_two_pow_self]
    cases w.testBit (bitOf i) <;> rfl
  · intro hne
    rw [linkFlagAt_setLinkFlags, linkFlagAt_setLinkFlags, Nat.testBit_xor,
      Nat.testBit_two_pow_of_ne fun he => hne (bitOf_inj j i he.symm)]
    cases w.testBit (bitOf j) <;> rfl
  · rw [linkFlagAt_setLinkFlags, linkFlagAt_setLinkFlags, Nat.testBit_xor,
      Nat.testBit_two_pow_of_ne fun he => bitOf_ne_11 j he.symm]
    cases w.testBit (bitOf j) <;> rfl
  · rw [linkFlagAt_setLinkFlags, linkFlagAt_setLinkFlags, Nat.testBit_xor,
      Nat.testBit_two_pow_of_ne fun he => bitOf_ne_16 j he.symm]
    cases w.testBit (bitOf j) <;> rfl

/-- Witness for C3: flipping bit 0 of the zero word leaves the second
named flag unchanged. -/
theorem C3_flag_toggle_bijection_witness :
    (0 : Nat) < 4294967296 ∧ (1 : Fin 25) ≠ (0 : Fin 25) ∧
      linkFlagAt (setLinkFlags {} ((0 : Nat) ^^^ 2 ^ bitOf (0 : Fin 25))) (1 : Fin 25) =
        linkFlagAt (setLinkFlags {} 0) (1 : Fin 25) :=
  ⟨by norm_num, by decide,
    (C3_flag_toggle_bijection 0 (by norm_num) {} (0 : Fin 25) (1 : Fin 25)).2.1 (by decide)⟩

/-- C4: for every accepted key code, `HotKey.String` renders the key
token per the spec rule (F-keys as "F" plus code−0x6F in decimal, the
fixed NumLock/ScrollLock tokens, literal character otherwise) prefixed
with "Shift+", "Ctrl+", "Alt+" in that fixed order, each only when its
modifier bit is set; in particular 0x78 with no modifiers renders as
"F9" and 0x41 with shift renders as "Shift+A". -/
theorem C4_hotkey_rendering (key : Nat) (sh ct al : Bool) (hacc : hotKeyAccepted key) :
    hotKeyString ⟨key, sh, ct, al⟩ = hotKeyRenderSpec key sh ct al ∧
      hotKeyString ⟨0x78, false, false, false⟩ = "F9" ∧
      hotKeyString ⟨0x41, true, false, false⟩ = "Shift+A" := by
  refine ⟨?_, by decide, by decide⟩
  unfold hotKeyString hotKeyRenderSpec
  cases sh <;> cases ct <;> cases al <;>
    · dsimp only
      congr 1

/-- Witness for C4: the rendering of key code 0x78. -/
theorem C4_hotkey_rendering_witness :
    hotKeyAccepted 0x78 ∧
      hotKeyString ⟨0x78, false, false, false⟩ = hotKeyRenderSpec 0x78 false false false :=
  ⟨by decide, (C4_hotkey_rendering 0x78 false false false (by decide)).1⟩

/-- C5: in the `LinkInfo` stage the Unicode local-base-path offset is
read if and only if the nested header size exceeds 28, and the Unicode
path-suffix offset if and only if it exceeds 32: the stream position
after the offsets and the two Unicode fields of the record depend on
those two threshold comparisons exactly (instantiating the header size
at 30 reads exactly the one extra field). -/
theorem C5_linkinfo_unicode_thresholds (lnk : LNK) (sz hdr a b c d u1 u2 : Nat)
    (rest : List Nat)
    (hsz : sz < 4294967296) (hhdr : hdr < 4294967296)
    (ha : a < 4294967296) (hb : b < 4294967296) (hc : c < 4294967296) (hd : d < 4294967296)
    (hu1 : u1 < 4294967296) (hu2 : u2 < 4294967296) :
    parseLinkInfoBody lnk (encLE 4 sz ++ (encLE 4 hdr ++ (encLE 4 0 ++ (encLE 4 a ++
        (encLE 4 b ++ (encLE 4 c ++ (encLE 4 d ++ (encLE 4 u1 ++ (encLE 4 u2 ++ rest))))))))) =
      .ok ({ lnk with
          LinkInfoSize := sz
          LinkInfoHeaderSize := hdr
          LinkInfoFlags := 0
          VolumeIDAndLocalBasePath := false
          CommonNetworkRelativeLinkAndPathSuffix := false
          VolumeIDOffset := a
          LocalBasePathOffset := b
          CommonNetworkRelativeLinkOffset := c
          CommonPathSuffixOffset := d
          LocalBasePathOffsetUnicode :=
            if 28 < hdr then u1 else lnk.LocalBasePathOffsetUnicode
          CommonPathSuffixOffsetUnicode :=
            if 32 < hdr then u2 else lnk.CommonPathSuffixOffsetUnicode },
        if 28 < hdr then (if 32 < hdr then rest else encLE 4 u2 ++ rest)
        else encLE 4 u1 ++ (encLE 4 u2 ++ rest)) :=
  parseLinkInfoBody_enc0 lnk sz hdr a b c d u1 u2 rest hsz hhdr ha hb hc hd hu1 hu2

/-- Witness for C5: nested header size 30 reads the Unicode
local-base-path offset (here 7) and leaves the Unicode path-suffix
field bytes (here the encoding of 9) unread in the stream. -/
theorem C5_linkinfo_unicode_thresholds_witness :
    parseLinkInfoBody {} (encLE 4 40 ++ (encLE 4 30 ++ (encLE 4 0 ++ (encLE 4 0 ++
        (encLE 4 0 ++ (encLE 4 0 ++ (encLE 4 0 ++ (encLE 4 7 ++ (encLE 4 9 ++ [1, 2]))))))))) =
      .ok ({ ({} : LNK) with
          LinkInfoSize := 40
          LinkInfoHeaderSize := 30
          LinkInfoFlags := 0
          VolumeIDAndLocalBasePath := false
          CommonNetworkRelativeLinkAndPathSuffix := false
          VolumeIDOffset := 0
          LocalBasePathOffset := 0
          CommonNetworkRelativeLinkOffset := 0
          CommonPathSuffixOffset := 0
          LocalBasePathOffsetUnicode := 7
          CommonPathSuffixOffsetUnicode := 0 },
        encLE 4 9 ++ [1, 2]) := by
  have h := C5_linkinfo_unicode_thresholds {} 40 30 0 0 0 0 7 9 [1, 2]
    (by norm_num) (by norm_num) (by norm_num) (by norm_num) (by norm_num) (by norm_num)
    (by norm_num) (by norm_num)
  simpa using h

/-- C9: when the `LinkInfo` sub-flags word is 0, the volume label and
local base path of the returned record stay empty, none of the
`VolumeID` fields is read, and the stream beyond the (conditional)
Unicode offsets is left untouched: no string-reading occurs. -/
theorem C9_linkinfo_no_volume_strings (lnk : LNK) (sz hdr a b c d u1 u2 : Nat)
    (rest : List Nat)
    (hsz : sz < 4294967296) (hhdr : hdr < 4294967296)
    (ha : a < 4294967296) (hb : b < 4294967296) (hc : c < 4294967296) (hd : d < 4294967296)
    (hu1 : u1 < 4294967296) (hu2 : u2 < 4294967296)
    (hvl : lnk.VolumeLabel = []) (hlb : lnk.LocalBasePath = []) :
    (parseLinkInfoBody lnk (encLE 4 sz ++ (encLE 4 hdr ++ (encLE 4 0 ++ (encLE 4 a ++
        (encLE 4 b ++ (encLE 4 c ++ (encLE 4 d ++ (encLE 4 u1 ++
        (encLE 4 u2 ++ rest)))))))))).map
      (fun p => (p.1.VolumeIDAndLocalBasePath, p.1.VolumeLabel, p.1.LocalBasePath,
        p.1.VolumeIDSize, p.1.DriveType, p.1.DriveSerialNumber, p.1.VolumeLabelOffset,
        p.1.VolumeLabelOffsetUnicode, p.2)) =
      .ok (false, [], [], lnk.VolumeIDSize, lnk.DriveType, lnk.DriveSerialNumber,
        lnk.VolumeLabelOffset, lnk.VolumeLabelOffsetUnicode,
        if 28 < hdr then (if 32 < hdr then rest else encLE 4 u2 ++ rest)
        else encLE 4 u1 ++ (encLE 4 u2 ++ rest)) := by
  rw [parseLinkInfoBody_enc0 lnk sz hdr a b c d u1 u2 rest hsz hhdr ha hb hc hd hu1 hu2]
  simp [Except.map, hvl, hlb]

/-- Witness for C9: sub-flags 0 with header size 28 leaves the trailing
stream bytes unread and all volume fields at their defaults. -/
theorem C9_linkinfo_no_volume_strings_witness :
    (parseLinkInfoBody {} (encLE 4 0 ++ (encLE 4 28 ++ (encLE 4 0 ++ (encLE 4 0 ++
        (encLE 4 0 ++ (encLE 4 0 ++ (encLE 4 0 ++ (encLE 4 7 ++
        (encLE 4 9 ++ [5])))))))))).map
      (fun p => (p.1.VolumeIDAndLocalBasePath, p.1.VolumeLabel, p.1.LocalBasePath,
        p.1.VolumeIDSize, p.1.DriveType, p.1.DriveSerialNumber, p.1.VolumeLabelOffset,
        p.1.VolumeLabelOffsetUnicode, p.2)) =
      .ok (false, [], [], 0, 0, 0, 0, 0, encLE 4 7 ++ (encLE 4 9 ++ [5])) := by
  have h := C9_linkinfo_no_volume_strings {} 0 28 0 0 0 0 7 9 [5]
    (by norm_num) (by norm_num) (by norm_num) (by norm_num) (by norm_num) (by norm_num)
    (by norm_num) (by norm_num) rfl rfl
  simpa using h
